import Mathlib

set_option autoImplicit false

/-!
Verification of the widget settings synchronization service
(`src/app/services/widgets/settings/widget-settings.ts`).

The service keeps a cached copy of a remote widget configuration document,
synchronizes it over HTTP (`fetchData`, `saveData`, `saveSettings`) and patches
it on socket push events (`onSettingsUpdatedHandler`).  Documents are JSON
objects; we embed them as association lists of string keys and JSON values,
with `Object.assign` as a left fold of single-field updates.  Network effects
are embedded by passing an oracle `net : Req → Option JObj` (`none` models a
transport error or non-2xx response) and by returning the list of issued
requests and emitted `dataUpdated` notifications alongside the new cache state.
-/

/-- A JSON value: number, string, boolean, null, or object. -/
inductive JVal where
  | num : Int → JVal
  | str : String → JVal
  | jbool : Bool → JVal
  | jnull : JVal
  | obj : List (String × JVal) → JVal

/-- A JavaScript object: an association list of fields, first match wins on read. -/
abbrev JObj := List (String × JVal)

/-- JavaScript truthiness of a value. -/
def truthy : JVal → Bool
  | .num n => n != 0
  | .str s => s != ""
  | .jbool b => b
  | .jnull => false
  | .obj _ => true

/-- Property read `o[k]`: the first field with key `k`, if any. -/
def getField (o : JObj) (k : String) : Option JVal :=
  (o.find? fun e => e.1 == k).map fun e => e.2

/-- Property write `o[k] = v`: replace the first field with key `k` in place,
or append a new field. -/
def setField (o : JObj) (k : String) (v : JVal) : JObj :=
  match o with
  | [] => [(k, v)]
  | (k₁, v₁) :: rest => if k₁ == k then (k, v) :: rest else (k₁, v₁) :: setField rest k v

/-- `Object.assign(target, src)`: copy the fields of `src` onto `target` in order. -/
def objAssign (target : JObj) (src : JObj) : JObj :=
  src.foldl (fun acc e => setField acc e.1 e.2) target

/-- The list of keys of an object. -/
def keys (o : JObj) : List String := o.map fun e => e.1

/-- `THttpMethod` from the source: the HTTP verbs the service uses. -/
inductive Method where
  | GET
  | POST
  | DELETE
  deriving DecidableEq, Repr

/-- An HTTP request as built by `request`: url, verb and optional JSON body. -/
structure Req where
  url : String
  method : Method
  body : Option JObj

/-- `IWidgetApiSettings`: the registered push-event name and the narrow
settings-save endpoint. -/
structure ApiSettings where
  settingsUpdatedEvent : String
  settingsSaveUrl : String
  deriving DecidableEq, Repr

/-- `ISocketEvent`: a push event with a type tag and a message payload. -/
structure SocketEvent where
  type : String
  message : JObj

/-- A declarative tab entry (`{ name: string } & Partial<IWidgetTab>`): only
`name` is mandatory, every other field is optional. -/
structure TabDecl where
  name : String
  title : Option String := none
  fetchUrl : Option String := none
  saveUrl : Option String := none
  resetUrl : Option String := none
  resetMethod : Option Method := none
  autosave : Option Bool := none
  showControls : Option Bool := none
  deriving DecidableEq, Repr

/-- A resolved `IWidgetTab` as returned by `getTabs`.  The URL fields stay
optional: when `getDataUrl()` is empty and the entry declares no URL, the
resolved field is `undefined`. -/
structure ResolvedTab where
  name : String
  title : String
  fetchUrl : Option String
  saveUrl : Option String
  resetUrl : Option String
  resetMethod : Method
  autosave : Bool
  showControls : Bool
  deriving DecidableEq, Repr

/-- The state and behaviour parameters of one `WidgetSettingsService` instance:
its data URL, widget type, api settings, declared tabs, and the two overridable
normalization hooks. -/
structure Syncer where
  dataUrl : String
  widgetType : Int
  apiSettings : ApiSettings
  tabs : List TabDecl
  patchAfterFetch : JObj → JObj
  patchBeforeSend : JObj → JObj

/-- The base-class `getApiSettings`: both fields default to the empty string. -/
def defaultApiSettings : ApiSettings :=
  { settingsUpdatedEvent := "", settingsSaveUrl := "" }

/-- The base-class declared tabs: a single `settings` entry. -/
def defaultTabs : List TabDecl := [{ name := "settings" }]

/-- `CODE_EDITOR_TABS` from the source. -/
def codeEditorTabs : List TabDecl :=
  [{ name := "HTML", showControls := some false, autosave := some false },
   { name := "CSS", showControls := some false, autosave := some false },
   { name := "JS", showControls := some false, autosave := some false }]

/-- `tab.name.charAt(0).toUpperCase() + tab.name.substr(1)`. -/
def capitalizeFirst (s : String) : String :=
  match s.data with
  | [] => ""
  | c :: cs => String.mk (c.toUpper :: cs)

/-- JavaScript `a || b` on a possibly-undefined string `a`: keep `a` unless it
is absent or empty. -/
def strOr (a : Option String) (b : Option String) : Option String :=
  match a with
  | some s => if s = "" then b else some s
  | none => b

/-- Object-spread override: a field present on the spread source wins, even
when falsy; otherwise the computed value stands. -/
def jsSpread (declared : Option String) (computed : Option String) : Option String :=
  match declared with
  | some u => some u
  | none => computed

/-- `getTabs()`: resolve every declared tab entry.  The defaults are computed
from `getDataUrl()` and the entry's own URL fields with JavaScript `||`, then
the entry is spread last so each declared field overrides the computed one. -/
def getTabs (s : Syncer) : List ResolvedTab :=
  s.tabs.map fun tab =>
    let resetMethod : Method := .DELETE
    let fetchUrl := strOr (some s.dataUrl) tab.fetchUrl
    let saveUrl := strOr tab.saveUrl fetchUrl
    let resetUrl := strOr tab.resetUrl saveUrl
    { name := tab.name
      title := tab.title.getD (capitalizeFirst tab.name)
      fetchUrl := jsSpread tab.fetchUrl fetchUrl
      saveUrl := jsSpread tab.saveUrl saveUrl
      resetUrl := jsSpread tab.resetUrl resetUrl
      resetMethod := tab.resetMethod.getD resetMethod
      autosave := tab.autosave.getD true
      showControls := tab.showControls.getD true }

/-- `getTab(name)`: the first resolved tab with the given name.  A call with
`tabName` left `undefined` matches no tab. -/
def getTab (s : Syncer) (name : Option String) : Option ResolvedTab :=
  match name with
  | none => none
  | some n => (getTabs s).find? fun t => t.name == n

/-- `handleDataAfterFetch`: promote a truthy legacy `custom` field to
`custom_defaults`, stamp `type` with the service's widget type, then apply the
resource-specific `patchAfterFetch` hook. -/
def handleDataAfterFetch (s : Syncer) (data : JObj) : JObj :=
  let d₁ :=
    match getField data "custom" with
    | some v => if truthy v then setField data "custom_defaults" v else data
    | none => data
  let d₂ := setField d₁ "type" (.num s.widgetType)
  s.patchAfterFetch d₂

/-- The outcome of one operation: its resolved or rejected value, the cache
afterwards, the HTTP requests issued, and the `dataUpdated` notifications
emitted, in order. -/
structure OpOut (α : Type) where
  result : Except Unit α
  data : Option JObj
  reqs : List Req
  notes : List JObj

/-- `fetchData()`: when the cache is empty, GET the data URL, normalize the
response with `handleDataAfterFetch` and store it; otherwise leave the network
alone.  Returns the cached document.  A failed request rejects the operation
and leaves the cache untouched. -/
def fetchData (s : Syncer) (net : Req → Option JObj) (st : Option JObj) : OpOut JObj :=
  match st with
  | some d => { result := .ok d, data := some d, reqs := [], notes := [] }
  | none =>
    let r : Req := { url := s.dataUrl, method := .GET, body := none }
    match net r with
    | none => { result := .error (), data := none, reqs := [r], notes := [] }
    | some raw =>
      let d := handleDataAfterFetch s raw
      { result := .ok d, data := some d, reqs := [r], notes := [] }

/-- The url chosen by `saveData`: the resolved tab's save URL when the tab
exists and its save URL is truthy, otherwise `getDataUrl()`. -/
def saveUrlOf (s : Syncer) (tabName : Option String) : String :=
  match getTab s tabName with
  | some t =>
    match t.saveUrl with
    | some u => if u = "" then s.dataUrl else u
    | none => s.dataUrl
  | none => s.dataUrl

/-- `saveData(data, tabName?, method = POST)`: send the `patchBeforeSend`-patched
document to the resolved save URL, then return `fetchData()`.  A failed save
request rejects the operation and leaves the cache untouched. -/
def saveData (s : Syncer) (net : Req → Option JObj) (st : Option JObj)
    (data : JObj) (tabName : Option String) (method : Method) : OpOut JObj :=
  let bodyData := s.patchBeforeSend data
  let r : Req := { url := saveUrlOf s tabName, method := method, body := some bodyData }
  match net r with
  | none => { result := .error (), data := st, reqs := [r], notes := [] }
  | some _ =>
    let f := fetchData s net st
    { result := f.result, data := f.data, reqs := r :: f.reqs, notes := f.notes }

/-- `saveSettings(settings)`: POST the patched settings object to the narrow
settings-save endpoint.  The cache is never touched. -/
def saveSettings (s : Syncer) (net : Req → Option JObj) (st : Option JObj)
    (settings : JObj) : OpOut Unit :=
  let body := s.patchBeforeSend settings
  let r : Req := { url := s.apiSettings.settingsSaveUrl, method := .POST, body := some body }
  match net r with
  | none => { result := .error (), data := st, reqs := [r], notes := [] }
  | some _ => { result := .ok (), data := st, reqs := [r], notes := [] }

/-- `onSettingsUpdatedHandler(event)`: ignore events whose type differs from
the registered update-event name, and all events while the cache is empty.
Otherwise patch the payload with `patchAfterFetch`, copy the cached document,
overwrite its `settings` field with the patched payload, store the result via
`setWidgetData` and emit it on `dataUpdated`.  Returns the new cache state and
the emitted notifications. -/
def onSettingsUpdatedHandler (s : Syncer) (st : Option JObj) (event : SocketEvent) :
    Option JObj × List JObj :=
  if event.type ≠ s.apiSettings.settingsUpdatedEvent then (st, [])
  else
    match st with
    | none => (st, [])
    | some d =>
      let newSettings := s.patchAfterFetch event.message
      let data := objAssign [] d
      let newData := objAssign data [("settings", JVal.obj newSettings)]
      (some newData, [newData])


/-! ### Association-list lemmas -/

theorem getField_setField_self (o : JObj) (k : String) (v : JVal) :
    getField (setField o k v) k = some v := by
  induction o with
  | nil => simp [setField, getField]
  | cons e rest ih =>
    obtain ⟨k₁, v₁⟩ := e
    rcases eq_or_ne k₁ k with h | h
    · subst h
      simp [setField, getField]
    · have hb : (k₁ == k) = false := beq_eq_false_iff_ne.mpr h
      simp only [setField, hb, Bool.false_eq_true, if_false]
      simpa [getField, List.find?_cons, hb] using ih

theorem getField_setField_ne (o : JObj) (k k₂ : String) (v : JVal) (h : k₂ ≠ k) :
    getField (setField o k v) k₂ = getField o k₂ := by
  have hb : (k == k₂) = false := beq_eq_false_iff_ne.mpr (Ne.symm h)
  induction o with
  | nil => simp [setField, getField, List.find?_cons, hb]
  | cons e rest ih =>
    obtain ⟨k₁, v₁⟩ := e
    rcases eq_or_ne k₁ k with h₁ | h₁
    · subst h₁
      simp [setField, getField, List.find?_cons, hb]
    · have hb₁ : (k₁ == k) = false := beq_eq_false_iff_ne.mpr h₁
      rcases eq_or_ne k₁ k₂ with h₂ | h₂
      · subst h₂
        simp [setField, getField, List.find?_cons, hb₁]
      · have hb₂ : (k₁ == k₂) = false := beq_eq_false_iff_ne.mpr h₂
        simpa [setField, getField, List.find?_cons, hb₁, hb₂] using ih

theorem setField_of_not_mem (o : JObj) (k : String) (v : JVal) (h : k ∉ keys o) :
    setField o k v = o ++ [(k, v)] := by
  induction o with
  | nil => simp [setField]
  | cons e rest ih =>
    obtain ⟨k₁, v₁⟩ := e
    simp only [keys, List.map_cons, List.mem_cons, not_or] at h
    have hb : (k₁ == k) = false := beq_eq_false_iff_ne.mpr (Ne.symm h.1)
    simp [setField, hb, ih (by simpa [keys] using h.2)]

theorem keys_cons (k : String) (v : JVal) (o : JObj) :
    keys ((k, v) :: o) = k :: keys o := rfl

theorem keys_append (a b : JObj) : keys (a ++ b) = keys a ++ keys b := by
  simp [keys]

theorem objAssign_of_disjoint (src : JObj) (target : JObj)
    (hd : ∀ x ∈ keys src, x ∉ keys target) (hn : (keys src).Nodup) :
    objAssign target src = target ++ src := by
  induction src generalizing target with
  | nil => simp [objAssign]
  | cons e rest ih =>
    obtain ⟨k, v⟩ := e
    rw [keys_cons, List.nodup_cons] at hn
    have hk : k ∉ keys target := hd k (by rw [keys_cons]; exact List.mem_cons_self k _)
    have step : setField target k v = target ++ [(k, v)] := setField_of_not_mem _ _ _ hk
    have hd₂ : ∀ x ∈ keys rest, x ∉ keys (target ++ [(k, v)]) := by
      intro x hx
      rw [keys_append, List.mem_append]
      rintro (hmem | hmem)
      · exact hd x (by rw [keys_cons]; exact List.mem_cons_of_mem _ hx) hmem
      · rw [keys_cons] at hmem
        simp only [keys, List.map_nil, List.mem_cons, List.not_mem_nil, or_false] at hmem
        exact hn.1 (hmem ▸ hx)
    have := ih (target ++ [(k, v)]) hd₂ hn.2
    simp only [objAssign] at this ⊢
    simp [List.foldl_cons, step, this]

theorem objAssign_nil (o : JObj) (hn : (keys o).Nodup) : objAssign [] o = o := by
  simpa using objAssign_of_disjoint o [] (by simp [keys]) hn

theorem objAssign_singleton (o : JObj) (k : String) (v : JVal) :
    objAssign o [(k, v)] = setField o k v := rfl

theorem handler_accepted_eq (s : Syncer) (d : JObj) (ev : SocketEvent)
    (ht : ev.type = s.apiSettings.settingsUpdatedEvent) (hn : (keys d).Nodup) :
    onSettingsUpdatedHandler s (some d) ev =
      (some (setField d "settings" (JVal.obj (s.patchAfterFetch ev.message))),
       [setField d "settings" (JVal.obj (s.patchAfterFetch ev.message))]) := by
  unfold onSettingsUpdatedHandler
  rw [if_neg (by simp [ht])]
  simp [objAssign_nil d hn, objAssign_singleton]

/-! ### Concrete fixtures used by witnesses and counterexamples -/

/-- A concrete api settings record with a registered update event. -/
def wApi : ApiSettings := { settingsUpdatedEvent := "upd", settingsSaveUrl := "/s" }

/-- A concrete syncer: data URL `/d`, widget type `7`, default tabs and hooks. -/
def wSyncer : Syncer :=
  { dataUrl := "/d", widgetType := 7, apiSettings := wApi, tabs := defaultTabs,
    patchAfterFetch := id, patchBeforeSend := id }

/-- A concrete cached document with settings `{a: 1, b: 2}`. -/
def wDoc : JObj :=
  [("type", JVal.num 7), ("settings", JVal.obj [("a", JVal.num 1), ("b", JVal.num 2)])]

/-- A concrete server response body. -/
def wResp : JObj := [("settings", JVal.obj [("x", JVal.num 1)])]

/-- A network oracle on which every request succeeds with `wResp`. -/
def wNet : Req → Option JObj := fun _ => some wResp

/-- A network oracle on which every request fails. -/
def wNetFail : Req → Option JObj := fun _ => none

/-- A push event of the registered type carrying `{a: 9}`. -/
def wEvent : SocketEvent := { type := "upd", message := [("a", JVal.num 9)] }

/-- A push event of an unregistered type. -/
def wEventOther : SocketEvent := { type := "other", message := [("a", JVal.num 9)] }

/-! ### Claims -/

/-- Claim C4: whenever the cache is Present, `fetchData` performs no network
request and returns the cached document unchanged; calling `fetchData` twice
after a successful first fetch issues exactly one GET (all on the first call)
and both calls return the same cached value. -/
theorem C4_fetch_idempotent (s : Syncer) (net : Req → Option JObj) (d raw : JObj)
    (hnet : net { url := s.dataUrl, method := Method.GET, body := none } = some raw) :
    fetchData s net (some d) = { result := .ok d, data := some d, reqs := [], notes := [] } ∧
    (fetchData s net none).reqs = [{ url := s.dataUrl, method := Method.GET, body := none }] ∧
    fetchData s net (fetchData s net none).data =
      { result := (fetchData s net none).result, data := (fetchData s net none).data,
        reqs := [], notes := [] } := by
  refine ⟨rfl, ?_, ?_⟩ <;> simp [fetchData, hnet]

/-- Witness for C4 at the concrete syncer, network and document. -/
theorem C4_fetch_idempotent_witness :
    fetchData wSyncer wNet (some wDoc) =
      { result := .ok wDoc, data := some wDoc, reqs := [], notes := [] } ∧
    (fetchData wSyncer wNet none).reqs =
      [{ url := wSyncer.dataUrl, method := Method.GET, body := none }] ∧
    fetchData wSyncer wNet (fetchData wSyncer wNet none).data =
      { result := (fetchData wSyncer wNet none).result,
        data := (fetchData wSyncer wNet none).data, reqs := [], notes := [] } :=
  C4_fetch_idempotent wSyncer wNet wDoc wResp rfl

/-- Claim C5: a push event whose type differs from the registered update-event
name never alters the cached document, in any cache state, and emits no
notification. -/
theorem C5_gate_rejects_other_types (s : Syncer) (st : Option JObj) (ev : SocketEvent)
    (h : ev.type ≠ s.apiSettings.settingsUpdatedEvent) :
    onSettingsUpdatedHandler s st ev = (st, []) := by
  simp [onSettingsUpdatedHandler, h]

/-- Witness for C5 at a concrete non-matching event and a present cache. -/
theorem C5_gate_rejects_other_types_witness :
    onSettingsUpdatedHandler wSyncer (some wDoc) wEventOther = (some wDoc, []) :=
  C5_gate_rejects_other_types wSyncer (some wDoc) wEventOther (by decide)

/-- Claim C6: every push event arriving while the cache is Absent is ignored
and the cache stays Absent; a failed fetch also leaves it Absent, so the only
Absent-to-Present transition is a successful fetch; and no operation (push,
fetch, save, settings save) moves the cache from Present back to Absent. -/
theorem C6_absent_ignored_no_unset (s : Syncer) (net : Req → Option JObj)
    (ev : SocketEvent) (d body settings : JObj) (tn : Option String) (m : Method) :
    onSettingsUpdatedHandler s none ev = (none, []) ∧
    ((onSettingsUpdatedHandler s (some d) ev).1).isSome = true ∧
    (net { url := s.dataUrl, method := Method.GET, body := none } = none →
      fetchData s net none =
        { result := .error (), data := none,
          reqs := [{ url := s.dataUrl, method := Method.GET, body := none }], notes := [] }) ∧
    ((fetchData s net (some d)).data).isSome = true ∧
    ((saveData s net (some d) body tn m).data).isSome = true ∧
    (saveSettings s net (some d) settings).data = some d := by
  refine ⟨?_, ?_, ?_, ?_, ?_, ?_⟩
  · unfold onSettingsUpdatedHandler
    split <;> rfl
  · unfold onSettingsUpdatedHandler
    split <;> simp
  · intro h
    simp [fetchData, h]
  · rfl
  · unfold saveData
    dsimp only
    split <;> simp [fetchData]
  · unfold saveSettings
    dsimp only
    split <;> rfl

/-- Witness for C6 at the concrete syncer with a failing network. -/
theorem C6_absent_ignored_no_unset_witness :
    onSettingsUpdatedHandler wSyncer none wEvent = (none, []) ∧
    ((onSettingsUpdatedHandler wSyncer (some wDoc) wEvent).1).isSome = true ∧
    (wNetFail { url := wSyncer.dataUrl, method := Method.GET, body := none } = none →
      fetchData wSyncer wNetFail none =
        { result := .error (), data := none,
          reqs := [{ url := wSyncer.dataUrl, method := Method.GET, body := none }],
          notes := [] }) ∧
    ((fetchData wSyncer wNetFail (some wDoc)).data).isSome = true ∧
    ((saveData wSyncer wNetFail (some wDoc) wResp none Method.POST).data).isSome = true ∧
    (saveSettings wSyncer wNetFail (some wDoc) wResp).data = some wDoc :=
  C6_absent_ignored_no_unset wSyncer wNetFail wEvent wDoc wResp wResp none Method.POST

/-- Claim C7: each of `fetchData`, `saveData` and `saveSettings` rejects
exactly when one of the HTTP requests it issued failed, and whenever it
rejects the cache afterwards equals the cache before the operation began;
`saveSettings` never touches the cache at all. -/
theorem C7_failure_leaves_cache (s : Syncer) (net : Req → Option JObj) (st : Option JObj)
    (data settings : JObj) (tn : Option String) (m : Method) :
    ((fetchData s net st).result = .error () ↔
      ∃ r ∈ (fetchData s net st).reqs, net r = none) ∧
    ((fetchData s net st).result = .error () → (fetchData s net st).data = st) ∧
    ((saveData s net st data tn m).result = .error () ↔
      ∃ r ∈ (saveData s net st data tn m).reqs, net r = none) ∧
    ((saveData s net st data tn m).result = .error () →
      (saveData s net st data tn m).data = st) ∧
    ((saveSettings s net st settings).result = .error () ↔
      ∃ r ∈ (saveSettings s net st settings).reqs, net r = none) ∧
    (saveSettings s net st settings).data = st := by
  have hfetch : ∀ st₁ : Option JObj,
      ((fetchData s net st₁).result = .error () ↔
        ∃ r ∈ (fetchData s net st₁).reqs, net r = none) ∧
      ((fetchData s net st₁).result = .error () → (fetchData s net st₁).data = st₁) := by
    intro st₁
    match st₁ with
    | some d => simp [fetchData]
    | none =>
      rcases hn : net { url := s.dataUrl, method := Method.GET, body := none } with _ | raw
      · simp [fetchData, hn]
      · simp [fetchData, hn]
  refine ⟨(hfetch st).1, (hfetch st).2, ?_, ?_, ?_, ?_⟩
  · rcases hs : net { url := saveUrlOf s tn, method := m, body := some (s.patchBeforeSend data) }
      with _ | resp
    · simp [saveData, hs]
    · simpa [saveData, hs] using (hfetch st).1
  · rcases hs : net { url := saveUrlOf s tn, method := m, body := some (s.patchBeforeSend data) }
      with _ | resp
    · simp [saveData, hs]
    · simpa [saveData, hs] using (hfetch st).2
  · rcases hs : net (Req.mk s.apiSettings.settingsSaveUrl Method.POST
      (some (s.patchBeforeSend settings))) with _ | resp
    · simp [saveSettings, hs]
    · simp [saveSettings, hs]
  · unfold saveSettings
    dsimp only
    split <;> rfl

/-- Witness for C7 at the concrete syncer with a failing network. -/
theorem C7_failure_leaves_cache_witness :
    ((fetchData wSyncer wNetFail none).result = .error () ↔
      ∃ r ∈ (fetchData wSyncer wNetFail none).reqs, wNetFail r = none) ∧
    ((fetchData wSyncer wNetFail none).result = .error () →
      (fetchData wSyncer wNetFail none).data = none) ∧
    ((saveData wSyncer wNetFail none wResp none Method.POST).result = .error () ↔
      ∃ r ∈ (saveData wSyncer wNetFail none wResp none Method.POST).reqs,
        wNetFail r = none) ∧
    ((saveData wSyncer wNetFail none wResp none Method.POST).result = .error () →
      (saveData wSyncer wNetFail none wResp none Method.POST).data = none) ∧
    ((saveSettings wSyncer wNetFail none wResp).result = .error () ↔
      ∃ r ∈ (saveSettings wSyncer wNetFail none wResp).reqs, wNetFail r = none) ∧
    (saveSettings wSyncer wNetFail none wResp).data = none :=
  C7_failure_leaves_cache wSyncer wNetFail none wResp wResp none Method.POST

/-- Claim C10: `dataUpdated` fires exactly on an accepted push event with a
present cache, carrying the newly stored document; `fetchData` and `saveData`
(and hence the re-fetch inside `saveData`) store without emitting. -/
theorem C10_notification_discipline (s : Syncer) (net : Req → Option JObj)
    (st : Option JObj) (d data : JObj) (ev : SocketEvent) (tn : Option String)
    (m : Method) :
    (fetchData s net st).notes = [] ∧
    (saveData s net st data tn m).notes = [] ∧
    (ev.type ≠ s.apiSettings.settingsUpdatedEvent →
      (onSettingsUpdatedHandler s st ev).2 = []) ∧
    (onSettingsUpdatedHandler s none ev).2 = [] ∧
    (ev.type = s.apiSettings.settingsUpdatedEvent →
      ∃ nd, onSettingsUpdatedHandler s (some d) ev = (some nd, [nd])) := by
  have hfetch : ∀ st₁ : Option JObj, (fetchData s net st₁).notes = [] := by
    intro st₁
    unfold fetchData
    dsimp only
    split
    · rfl
    · split <;> rfl
  refine ⟨hfetch st, ?_, ?_, ?_, ?_⟩
  · unfold saveData
    dsimp only
    split
    · rfl
    · simp [hfetch st]
  · intro h
    simp [onSettingsUpdatedHandler, h]
  · unfold onSettingsUpdatedHandler
    split <;> rfl
  · intro h
    unfold onSettingsUpdatedHandler
    rw [if_neg (by simp [h])]
    exact ⟨_, rfl⟩

/-- Witness for C10 at the concrete syncer, network, document and event. -/
theorem C10_notification_discipline_witness :
    (fetchData wSyncer wNet (some wDoc)).notes = [] ∧
    (saveData wSyncer wNet (some wDoc) wResp none Method.POST).notes = [] ∧
    (wEvent.type ≠ wSyncer.apiSettings.settingsUpdatedEvent →
      (onSettingsUpdatedHandler wSyncer (some wDoc) wEvent).2 = []) ∧
    (onSettingsUpdatedHandler wSyncer none wEvent).2 = [] ∧
    (wEvent.type = wSyncer.apiSettings.settingsUpdatedEvent →
      ∃ nd, onSettingsUpdatedHandler wSyncer (some wDoc) wEvent = (some nd, [nd])) :=
  C10_notification_discipline wSyncer wNet (some wDoc) wDoc wResp wEvent none Method.POST

/-- A server payload carrying a server-supplied `type` and a truthy legacy
`custom` field. -/
def w8raw : JObj :=
  [("type", JVal.num 999), ("custom", JVal.obj [("html", JVal.str "x")]),
   ("settings", JVal.obj [("x", JVal.num 1)])]

/-- A network oracle answering every request with `w8raw`. -/
def w8net : Req → Option JObj := fun _ => some w8raw

/-- A syncer that keeps the base-class `getApiSettings`. -/
def w9syncer : Syncer :=
  { dataUrl := "/d", widgetType := 7, apiSettings := defaultApiSettings,
    tabs := defaultTabs, patchAfterFetch := id, patchBeforeSend := id }

/-- A push event whose type is the empty string. -/
def w9event : SocketEvent := { type := "", message := [("a", JVal.num 9)] }

/-- Claim C8: a fetched document is normalized by stamping `type` with the
syncer's widget type (overwriting any server value), promoting a truthy legacy
`custom` field to `custom_defaults`, and then applying the `patchAfterFetch`
hook; once cached, no later fetch, save, settings save or push event changes
the `type` field. -/
theorem C8_normalization_and_kind (s : Syncer) (net : Req → Option JObj)
    (raw doc data settings : JObj) (ev : SocketEvent) (tn : Option String) (m : Method)
    (hid : s.patchAfterFetch = id) (hn : (keys doc).Nodup)
    (hnet : net { url := s.dataUrl, method := Method.GET, body := none } = some raw) :
    (fetchData s net none).data = some (handleDataAfterFetch s raw) ∧
    getField (handleDataAfterFetch s raw) "type" = some (JVal.num s.widgetType) ∧
    (∀ v, getField raw "custom" = some v → truthy v = true →
      getField (handleDataAfterFetch s raw) "custom_defaults" = some v) ∧
    (fetchData s net (some doc)).data = some doc ∧
    (saveData s net (some doc) data tn m).data = some doc ∧
    (saveSettings s net (some doc) settings).data = some doc ∧
    (∃ nd, (onSettingsUpdatedHandler s (some doc) ev).1 = some nd ∧
      getField nd "type" = getField doc "type") := by
  refine ⟨by simp [fetchData, hnet], ?_, ?_, rfl, ?_, ?_, ?_⟩
  · unfold handleDataAfterFetch
    rw [hid]
    exact getField_setField_self _ _ _
  · intro v hv htr
    unfold handleDataAfterFetch
    rw [hid, hv]
    simp only [htr, if_true, id]
    rw [getField_setField_ne _ _ _ _ (by decide)]
    exact getField_setField_self _ _ _
  · unfold saveData
    dsimp only
    split
    · rfl
    · simp [fetchData]
  · unfold saveSettings
    dsimp only
    split <;> rfl
  · by_cases hev : ev.type = s.apiSettings.settingsUpdatedEvent
    · refine ⟨_, by rw [handler_accepted_eq s doc ev hev hn], ?_⟩
      exact getField_setField_ne _ _ _ _ (by decide)
    · exact ⟨doc, by simp [onSettingsUpdatedHandler, hev], rfl⟩

/-- Witness for C8 at a concrete syncer, server payload with a legacy `custom`
field carrying a server-supplied `type`, and a concrete cached document. -/
theorem C8_normalization_and_kind_witness :
    (fetchData wSyncer w8net none).data = some (handleDataAfterFetch wSyncer w8raw) ∧
    getField (handleDataAfterFetch wSyncer w8raw) "type" = some (JVal.num wSyncer.widgetType) ∧
    (∀ v, getField w8raw "custom" = some v → truthy v = true →
      getField (handleDataAfterFetch wSyncer w8raw) "custom_defaults" = some v) ∧
    (fetchData wSyncer w8net (some wDoc)).data = some wDoc ∧
    (saveData wSyncer w8net (some wDoc) wResp none Method.POST).data = some wDoc ∧
    (saveSettings wSyncer w8net (some wDoc) wResp).data = some wDoc ∧
    (∃ nd, (onSettingsUpdatedHandler wSyncer (some wDoc) wEvent).1 = some nd ∧
      getField nd "type" = getField wDoc "type") :=
  C8_normalization_and_kind wSyncer w8net w8raw wDoc wResp wResp wEvent none Method.POST
    rfl (by decide) rfl

/-- Claim C9: with the base-class `getApiSettings`, the registered update-event
name is the empty string, so an event typed with the empty string passes the
gate and, with the default hook and a present cache, replaces the cached
document's settings with the event payload. -/
theorem C9_default_event_gate (s : Syncer) (d : JObj) (ev : SocketEvent)
    (hapi : s.apiSettings = defaultApiSettings) (hev : ev.type = "")
    (hid : s.patchAfterFetch = id) (hn : (keys d).Nodup) :
    s.apiSettings.settingsUpdatedEvent = "" ∧
    onSettingsUpdatedHandler s (some d) ev =
      (some (setField d "settings" (JVal.obj ev.message)),
       [setField d "settings" (JVal.obj ev.message)]) ∧
    getField (setField d "settings" (JVal.obj ev.message)) "settings" =
      some (JVal.obj ev.message) := by
  have h₁ : s.apiSettings.settingsUpdatedEvent = "" := by rw [hapi]; rfl
  refine ⟨h₁, ?_, getField_setField_self _ _ _⟩
  have h₂ := handler_accepted_eq s d ev (by rw [hev, h₁]) hn
  rw [hid] at h₂
  exact h₂

/-- Witness for C9 at a concrete base-configured syncer and empty-typed event. -/
theorem C9_default_event_gate_witness :
    w9syncer.apiSettings.settingsUpdatedEvent = "" ∧
    onSettingsUpdatedHandler w9syncer (some wDoc) w9event =
      (some (setField wDoc "settings" (JVal.obj w9event.message)),
       [setField wDoc "settings" (JVal.obj w9event.message)]) ∧
    getField (setField wDoc "settings" (JVal.obj w9event.message)) "settings" =
      some (JVal.obj w9event.message) :=
  C9_default_event_gate w9syncer wDoc w9event rfl rfl rfl (by decide)

/-- Claim C1 counterexample: with cached settings `{a: 1, b: 2}` and accepted
push payload `{a: 9}`, the handler installs settings `{a: 9}` — the key `b`
absent from the payload is dropped — while the claimed shallow overlay of the
old settings by the payload is `{a: 9, b: 2}`, a different object. -/
theorem C1_shallow_overlay_counterexample :
    (onSettingsUpdatedHandler wSyncer (some wDoc) wEvent).1 =
      some [("type", JVal.num 7), ("settings", JVal.obj [("a", JVal.num 9)])] ∧
    objAssign [("a", JVal.num 1), ("b", JVal.num 2)] [("a", JVal.num 9)] =
      [("a", JVal.num 9), ("b", JVal.num 2)] ∧
    JVal.obj [("a", JVal.num 9)] ≠ JVal.obj [("a", JVal.num 9), ("b", JVal.num 2)] := by
  refine ⟨rfl, rfl, ?_⟩
  simp

/-- Claim C1 amended: the handler replaces the cached document's `settings`
field wholesale with the patched push payload — settings keys absent from the
payload do not survive — while every top-level field other than `settings` is
unchanged. -/
theorem C1_settings_replaced (s : Syncer) (d : JObj) (ev : SocketEvent)
    (ht : ev.type = s.apiSettings.settingsUpdatedEvent) (hn : (keys d).Nodup) :
    ∃ nd, (onSettingsUpdatedHandler s (some d) ev).1 = some nd ∧
      getField nd "settings" = some (JVal.obj (s.patchAfterFetch ev.message)) ∧
      ∀ k, k ≠ "settings" → getField nd k = getField d k := by
  refine ⟨_, by rw [handler_accepted_eq s d ev ht hn], ?_, ?_⟩
  · exact getField_setField_self _ _ _
  · intro k hk
    exact getField_setField_ne _ _ _ _ hk

/-- Witness for the amended C1 at the concrete document and event. -/
theorem C1_settings_replaced_witness :
    ∃ nd, (onSettingsUpdatedHandler wSyncer (some wDoc) wEvent).1 = some nd ∧
      getField nd "settings" = some (JVal.obj (wSyncer.patchAfterFetch wEvent.message)) ∧
      ∀ k, k ≠ "settings" → getField nd k = getField wDoc k :=
  C1_settings_replaced wSyncer wDoc wEvent rfl (by decide)

/-- A stale cached document whose settings differ from the server's. -/
def c2stale : JObj := [("type", JVal.num 7), ("settings", JVal.obj [("x", JVal.num 1)])]

/-- The document the caller asks `saveData` to persist, and what the server
would return from a GET after the save. -/
def c2server : JObj := [("settings", JVal.obj [("x", JVal.num 2)])]

/-- A network oracle: GET returns `c2server`, every other request succeeds
with an empty body. -/
def c2net : Req → Option JObj := fun r =>
  match r.method with
  | Method.GET => some c2server
  | _ => some []

/-- Claim C2 counterexample: with a Present cache, a successful `saveData`
issues only the save POST — no GET re-fetch — resolves with the stale cached
document, and leaves the cache at that stale value, which differs from the
normalized document a real re-fetch would have installed. -/
theorem C2_save_refetch_counterexample :
    saveData wSyncer c2net (some c2stale) c2server none Method.POST =
      { result := .ok c2stale, data := some c2stale,
        reqs := [{ url := "/d", method := Method.POST, body := some c2server }],
        notes := [] } ∧
    (∀ r ∈ (saveData wSyncer c2net (some c2stale) c2server none Method.POST).reqs,
      r.method ≠ Method.GET) ∧
    c2net { url := "/d", method := Method.GET, body := none } = some c2server ∧
    some c2stale ≠ some (handleDataAfterFetch wSyncer c2server) := by
  refine ⟨rfl, ?_, rfl, ?_⟩
  · intro r hr
    have : r = { url := "/d", method := Method.POST, body := some c2server } := by
      simpa [saveData, c2net, fetchData] using hr
    rw [this]
    decide
  · show some c2stale ≠ some (setField c2server "type" (JVal.num 7))
    simp [c2stale, c2server, setField]

/-- Claim C2 amended: a successful `saveData` issues the save request and then
calls `fetchData`, which re-fetches only when the cache is Absent; when the
cache is Present no GET is issued and both the resolved value and the cache
remain the prior cached document; only from an Absent cache does the cache
become the freshly fetched, normalized server document. -/
theorem C2_save_then_conditional_refetch (s : Syncer) (net : Req → Option JObj)
    (data raw d : JObj) (tn : Option String) (m : Method)
    (hsave : net { url := saveUrlOf s tn, method := m, body := some (s.patchBeforeSend data) } = some raw) :
    (saveData s net (some d) data tn m =
      { result := .ok d, data := some d,
        reqs := [{ url := saveUrlOf s tn, method := m, body := some (s.patchBeforeSend data) }],
        notes := [] }) ∧
    (∀ fresh, net { url := s.dataUrl, method := Method.GET, body := none } = some fresh →
      saveData s net none data tn m =
        { result := .ok (handleDataAfterFetch s fresh),
          data := some (handleDataAfterFetch s fresh),
          reqs := [{ url := saveUrlOf s tn, method := m, body := some (s.patchBeforeSend data) },
            { url := s.dataUrl, method := Method.GET, body := none }],
          notes := [] }) := by
  constructor
  · simp [saveData, hsave, fetchData]
  · intro fresh hget
    simp [saveData, hsave, fetchData, hget]

/-- Witness for the amended C2 at the concrete syncer and network. -/
theorem C2_save_then_conditional_refetch_witness :
    (saveData wSyncer wNet (some wDoc) wResp none Method.POST =
      { result := .ok wDoc, data := some wDoc,
        reqs := [{ url := saveUrlOf wSyncer none, method := Method.POST, body := some (wSyncer.patchBeforeSend wResp) }],
        notes := [] }) ∧
    (∀ fresh,
      wNet { url := wSyncer.dataUrl, method := Method.GET, body := none } = some fresh →
      saveData wSyncer wNet none wResp none Method.POST =
        { result := .ok (handleDataAfterFetch wSyncer fresh),
          data := some (handleDataAfterFetch wSyncer fresh),
          reqs := [{ url := saveUrlOf wSyncer none, method := Method.POST, body := some (wSyncer.patchBeforeSend wResp) },
            { url := wSyncer.dataUrl, method := Method.GET, body := none }],
          notes := [] }) :=
  C2_save_then_conditional_refetch wSyncer wNet wResp wResp wDoc none Method.POST rfl

/-- A syncer whose single declared tab carries an explicit fetch URL differing
from the primary data URL. -/
def c3syncer : Syncer :=
  { dataUrl := "/d", widgetType := 7, apiSettings := defaultApiSettings,
    tabs := [{ name := "x", fetchUrl := some "/custom" }],
    patchAfterFetch := id, patchBeforeSend := id }

/-- Claim C3 counterexample: for a tab declaring `fetchUrl = /custom` and no
save URL, `getTabs` resolves the tab's fetchUrl to `/custom` but its saveUrl to
the primary data URL `/d` — not to the tab's fetch URL as claimed. -/
theorem C3_tab_defaulting_counterexample :
    getTabs c3syncer =
      [{ name := "x", title := "X", fetchUrl := some "/custom", saveUrl := some "/d",
         resetUrl := some "/d", resetMethod := Method.DELETE, autosave := true,
         showControls := true }] ∧
    (some "/d" : Option String) ≠ some "/custom" := by
  constructor
  · rfl
  · decide

/-- Modelled on the amended tab-defaulting statement: each default is computed
from the declared entry and the primary data URL with JavaScript truthiness
before any override is applied — the fetch default is the primary data URL
when nonempty, else the declared fetch URL; the save default is the declared
save URL when nonempty, else the fetch default; the reset default is the
declared reset URL when nonempty, else the save default — and each output
field is the declared value when present, else its default. -/
def specResolveTab (s : Syncer) (tab : TabDecl) : ResolvedTab :=
  let fetchDefault : Option String :=
    if s.dataUrl = "" then tab.fetchUrl else some s.dataUrl
  let saveDefault : Option String :=
    match tab.saveUrl with
    | some u => if u = "" then fetchDefault else some u
    | none => fetchDefault
  let resetDefault : Option String :=
    match tab.resetUrl with
    | some u => if u = "" then saveDefault else some u
    | none => saveDefault
  { name := tab.name
    title := match tab.title with | some t => t | none => capitalizeFirst tab.name
    fetchUrl := match tab.fetchUrl with | some u => some u | none => fetchDefault
    saveUrl := match tab.saveUrl with | some u => some u | none => saveDefault
    resetUrl := match tab.resetUrl with | some u => some u | none => resetDefault
    resetMethod := match tab.resetMethod with | some r₁ => r₁ | none => Method.DELETE
    autosave := match tab.autosave with | some b => b | none => true
    showControls := match tab.showControls with | some b => b | none => true }

/-- Claim C3 amended: `getTabs` returns the declared tabs in declaration
order, each resolved per `specResolveTab`: title defaults to the capitalized
name, resetMethod to DELETE, autosave and showControls to true, every declared
field overrides its own default, and the URL default chain is computed on the
pre-override values (primary data URL first), not on the overridden fields. -/
theorem C3_tab_defaulting (s : Syncer) :
    getTabs s = s.tabs.map (specResolveTab s) := by
  unfold getTabs
  congr 1
  funext tab
  unfold specResolveTab
  rcases tab with ⟨name, title, fUrl, sUrl, rUrl, rM, asv, sc⟩
  rcases fUrl with _ | fu <;> rcases sUrl with _ | su <;> rcases rUrl with _ | ru <;>
    rcases title with _ | t₁ <;> rcases rM with _ | r₁ <;> rcases asv with _ | a₁ <;>
    rcases sc with _ | b₁ <;> simp [strOr, jsSpread, Option.getD]
